import Mathlib

/-!
Verification of the raw-gadget example helper header (`examples/common.h`).

The file shallowly embeds the data model and the helper functions of the
header: the ioctl wrapper functions (modelled as functions of the kernel
call's return value, producing either a process exit with a diagnostic or
a normal return), the event / control-request loggers (modelled as pure
classification functions whose output mirrors the printf lines), and the
fixed wire layouts of the kernel interface structures.
-/

/-! ## Constants from `examples/common.h` and the Linux UAPI headers -/

def UDC_NAME_LENGTH_MAX : Nat := 128
def USB_RAW_EPS_NUM_MAX : Nat := 30
def USB_RAW_EP_NAME_MAX : Nat := 16

def USB_RAW_EVENT_INVALID : Nat := 0
def USB_RAW_EVENT_CONNECT : Nat := 1
def USB_RAW_EVENT_CONTROL : Nat := 2
def USB_RAW_EVENT_SUSPEND : Nat := 3
def USB_RAW_EVENT_RESUME : Nat := 4
def USB_RAW_EVENT_RESET : Nat := 5
def USB_RAW_EVENT_DISCONNECT : Nat := 6

/-- Values from `linux/usb/ch9.h`. -/
def USB_DIR_IN : Nat := 0x80
def USB_TYPE_MASK : Nat := 0x60
def USB_TYPE_STANDARD : Nat := 0x00
def USB_TYPE_CLASS : Nat := 0x20
def USB_TYPE_VENDOR : Nat := 0x40

def USB_REQ_GET_STATUS : Nat := 0x00
def USB_REQ_CLEAR_FEATURE : Nat := 0x01
def USB_REQ_SET_FEATURE : Nat := 0x03
def USB_REQ_GET_DESCRIPTOR : Nat := 0x06
def USB_REQ_GET_CONFIGURATION : Nat := 0x08
def USB_REQ_SET_CONFIGURATION : Nat := 0x09
def USB_REQ_GET_INTERFACE : Nat := 0x0A
def USB_REQ_SET_INTERFACE : Nat := 0x0B

def USB_DT_DEVICE : Nat := 0x01
def USB_DT_CONFIG : Nat := 0x02
def USB_DT_STRING : Nat := 0x03
def USB_DT_INTERFACE : Nat := 0x04
def USB_DT_ENDPOINT : Nat := 0x05
def USB_DT_DEVICE_QUALIFIER : Nat := 0x06
def USB_DT_OTHER_SPEED_CONFIG : Nat := 0x07
def USB_DT_INTERFACE_POWER : Nat := 0x08
def USB_DT_OTG : Nat := 0x09
def USB_DT_DEBUG : Nat := 0x0A
def USB_DT_INTERFACE_ASSOCIATION : Nat := 0x0B
def USB_DT_SECURITY : Nat := 0x0C
def USB_DT_KEY : Nat := 0x0D
def USB_DT_ENCRYPTION_TYPE : Nat := 0x0E
def USB_DT_BOS : Nat := 0x0F
def USB_DT_DEVICE_CAPABILITY : Nat := 0x10
def USB_DT_WIRELESS_ENDPOINT_COMP : Nat := 0x11
def USB_DT_PIPE_USAGE : Nat := 0x24
def USB_DT_SS_ENDPOINT_COMP : Nat := 0x30

/-- Values from `linux/hid.h`. -/
def HID_DT_HID : Nat := 0x21
def HID_DT_REPORT : Nat := 0x22
def HID_DT_PHYSICAL : Nat := 0x23

def HID_REQ_GET_REPORT : Nat := 0x01
def HID_REQ_GET_IDLE : Nat := 0x02
def HID_REQ_GET_PROTOCOL : Nat := 0x03
def HID_REQ_SET_REPORT : Nat := 0x09
def HID_REQ_SET_IDLE : Nat := 0x0A
def HID_REQ_SET_PROTOCOL : Nat := 0x0B

/-- Printer-class request codes defined in `examples/common.h` itself. -/
def GET_DEVICE_ID : Nat := 0
def GET_PORT_STATUS : Nat := 1
def SOFT_RESET : Nat := 2

/-! ## The transport wrappers

Each `usb_raw_*` wrapper performs one kernel call (`open` or `ioctl`) and
inspects its return value `rv`.  We model a wrapper as a function of that
return value: the kernel call itself is the environment's input.  The
outcome is either a process exit with the diagnostic string passed to
`perror`, a normal return of `rv` (for the `int`-returning wrappers), or a
plain normal return (for the `void` wrappers). -/

inductive TransportOp where
  | raw_open
  | init
  | run
  | event_fetch
  | ep0_read
  | ep0_write
  | ep_enable
  | ep_disable
  | ep_read
  | ep_write
  | configure
  | vbus_draw
  | eps_info
  | ep0_stall
  | ep_set_halt
  | ep_write_may_fail
  deriving DecidableEq, Repr

inductive KernOutcome where
  | exited (diag : String)
  | ret (rv : Int)
  | retUnit
  deriving DecidableEq, Repr

/-- The string each wrapper passes to `perror` on failure (note the
`CONFIGURED` typo in `usb_raw_configure`, kept as in the source). -/
def transport_diag : TransportOp → String
  | .raw_open => "open()"
  | .init => "ioctl(USB_RAW_IOCTL_INIT)"
  | .run => "ioctl(USB_RAW_IOCTL_RUN)"
  | .event_fetch => "ioctl(USB_RAW_IOCTL_EVENT_FETCH)"
  | .ep0_read => "ioctl(USB_RAW_IOCTL_EP0_READ)"
  | .ep0_write => "ioctl(USB_RAW_IOCTL_EP0_WRITE)"
  | .ep_enable => "ioctl(USB_RAW_IOCTL_EP_ENABLE)"
  | .ep_disable => "ioctl(USB_RAW_IOCTL_EP_DISABLE)"
  | .ep_read => "ioctl(USB_RAW_IOCTL_EP_READ)"
  | .ep_write => "ioctl(USB_RAW_IOCTL_EP_WRITE)"
  | .configure => "ioctl(USB_RAW_IOCTL_CONFIGURED)"
  | .vbus_draw => "ioctl(USB_RAW_IOCTL_VBUS_DRAW)"
  | .eps_info => "ioctl(USB_RAW_IOCTL_EPS_INFO)"
  | .ep0_stall => "ioctl(USB_RAW_IOCTL_EP0_STALL)"
  | .ep_set_halt => "ioctl(USB_RAW_IOCTL_EP_SET_HALT)"
  | .ep_write_may_fail => "ioctl(USB_RAW_IOCTL_EP_WRITE)"

/-- Whether the C wrapper has return type `int` (as opposed to `void`). -/
def wrapper_returns_int : TransportOp → Bool
  | .raw_open => true
  | .init => false
  | .run => false
  | .event_fetch => false
  | .ep0_read => true
  | .ep0_write => true
  | .ep_enable => true
  | .ep_disable => true
  | .ep_read => true
  | .ep_write => true
  | .configure => false
  | .vbus_draw => false
  | .eps_info => true
  | .ep0_stall => false
  | .ep_set_halt => false
  | .ep_write_may_fail => true

/-- The body of each wrapper as a function of the kernel call's return
value `r`.  All wrappers except `usb_raw_ep_write_may_fail` check
`rv < 0` and exit with their `perror` diagnostic;
`usb_raw_ep_write_may_fail` returns `rv` unconditionally. -/
def wrapper_outcome (op : TransportOp) (r : Int) : KernOutcome :=
  match op with
  | .ep_write_may_fail => .ret r
  | _ =>
      if r < 0 then .exited (transport_diag op)
      else if wrapper_returns_int op then .ret r else .retUnit

/-- The fatal subset named by the spec: every wrapper except
`usb_raw_ep_write_may_fail`. -/
def fatalOps : List TransportOp :=
  [.raw_open, .init, .run, .event_fetch, .ep0_read, .ep0_write,
   .ep_enable, .ep_disable, .ep_read, .ep_write, .configure,
   .vbus_draw, .eps_info, .ep0_stall, .ep_set_halt]

/-! ## Claims C1 and C2 -/

/-- C1: every transport operation in the fatal subset exits the process
with a diagnostic identifying the failed operation when the kernel call
returns a negative value (the diagnostics are pairwise distinct over the
subset, so they identify the operation), and returns the value normally
(or returns plainly, for the `void` wrappers) when it is non-negative. -/
theorem fatal_wrappers_exit_on_negative :
    ∀ op ∈ fatalOps, ∀ r : Int,
      (r < 0 → wrapper_outcome op r = KernOutcome.exited (transport_diag op)) ∧
      (0 ≤ r → wrapper_outcome op r =
        (if wrapper_returns_int op then KernOutcome.ret r else KernOutcome.retUnit)) ∧
      (∀ op2 ∈ fatalOps, transport_diag op = transport_diag op2 → op = op2) := by
  intro op hop r
  fin_cases hop <;>
    exact ⟨fun h => by simp [wrapper_outcome, h],
           fun h => by simp [wrapper_outcome, not_lt.mpr h],
           by decide⟩

theorem fatal_wrappers_exit_on_negative_witness :
    wrapper_outcome .run (-1) = KernOutcome.exited "ioctl(USB_RAW_IOCTL_RUN)" ∧
    wrapper_outcome .ep0_read 3 = KernOutcome.ret 3 := by
  refine ⟨(fatal_wrappers_exit_on_negative .run (by decide) (-1)).1 (by norm_num), ?_⟩
  have h := (fatal_wrappers_exit_on_negative .ep0_read (by decide) 3).2.1 (by norm_num)
  simpa using h

/-- C2: `usb_raw_ep_write_may_fail` returns the kernel result
unconditionally, negative results included, and never exits; every other
transport operation exits on a negative kernel result, so the may-fail
variant is unique to endpoint write. -/
theorem ep_write_may_fail_is_only_nonfatal :
    (∀ r : Int, wrapper_outcome .ep_write_may_fail r = KernOutcome.ret r) ∧
    (∀ op : TransportOp, op ≠ .ep_write_may_fail → ∀ r : Int, r < 0 →
      wrapper_outcome op r = KernOutcome.exited (transport_diag op)) := by
  refine ⟨fun r => rfl, fun op hne r hr => ?_⟩
  cases op <;> first
    | exact absurd rfl hne
    | simp [wrapper_outcome, hr]

theorem ep_write_may_fail_is_only_nonfatal_witness :
    wrapper_outcome .ep_write_may_fail (-5) = KernOutcome.ret (-5) ∧
    wrapper_outcome .ep_read (-5) =
      KernOutcome.exited "ioctl(USB_RAW_IOCTL_EP_READ)" := by
  refine ⟨ep_write_may_fail_is_only_nonfatal.1 (-5), ?_⟩
  exact ep_write_may_fail_is_only_nonfatal.2 .ep_read (by decide) (-5) (by norm_num)

/-! ## The control-request logger

`log_control_request` prints one line of raw fields (with the IN/OUT
direction extracted from `bRequestType & USB_DIR_IN`), one request-type
line from `bRequestType & USB_TYPE_MASK`, and one request line (with a
descriptor line nested for GET_DESCRIPTOR).  We model the printed
classification as an inductive record.  The class-request `switch` of the
source has duplicate `case` labels (`GET_PORT_STATUS` = 1 =
`HID_REQ_GET_REPORT`, `SOFT_RESET` = 2 = `HID_REQ_GET_IDLE`) and two
`default` labels; it is embedded as a first-match chain preserving the
textual order of the labels. -/

structure usb_ctrlrequest where
  bRequestType : Nat
  bRequest : Nat
  wValue : Nat
  wIndex : Nat
  wLength : Nat
  deriving DecidableEq, Repr

inductive UsbDir where
  | dirIn
  | dirOut
  deriving DecidableEq, Repr

inductive TypeLog where
  | standard
  | typeClass
  | vendor
  | unknownType (v : Nat)
  deriving DecidableEq, Repr

inductive DescLog where
  | dtDevice
  | dtConfig
  | dtString
  | dtInterface
  | dtEndpoint
  | dtDeviceQualifier
  | dtOtherSpeedConfig
  | dtInterfacePower
  | dtOtg
  | dtDebug
  | dtInterfaceAssociation
  | dtSecurity
  | dtKey
  | dtEncryptionType
  | dtBos
  | dtDeviceCapability
  | dtWirelessEndpointComp
  | dtPipeUsage
  | dtSsEndpointComp
  | dtHid
  | dtHidReport
  | dtHidPhysical
  | dtUnknown (v : Nat)
  deriving DecidableEq, Repr

inductive ReqLog where
  | getDescriptor (d : DescLog)
  | setConfiguration
  | getConfiguration
  | setInterface
  | getInterface
  | getStatus
  | clearFeature
  | setFeature
  | getDeviceId
  | getPortStatus
  | softReset
  | hidGetReport
  | hidGetIdle
  | hidGetProtocol
  | hidSetReport
  | hidSetIdle
  | hidSetProtocol
  | unknownReq (v : Nat)
  deriving DecidableEq, Repr

structure CtrlLog where
  dir : UsbDir
  typ : TypeLog
  req : ReqLog
  deriving DecidableEq, Repr

/-- The `(ctrl->bRequestType & USB_DIR_IN) ? "IN" : "OUT"` print. -/
def usb_dir_log (brt : Nat) : UsbDir :=
  if brt &&& USB_DIR_IN ≠ 0 then .dirIn else .dirOut

/-- The first `switch (ctrl->bRequestType & USB_TYPE_MASK)`; the default
branch prints the whole `bRequestType` value. -/
def usb_type_log (brt : Nat) : TypeLog :=
  if brt &&& USB_TYPE_MASK = USB_TYPE_STANDARD then .standard
  else if brt &&& USB_TYPE_MASK = USB_TYPE_CLASS then .typeClass
  else if brt &&& USB_TYPE_MASK = USB_TYPE_VENDOR then .vendor
  else .unknownType brt

/-- The `switch (ctrl->wValue >> 8)` nested under GET_DESCRIPTOR. -/
def desc_log (v : Nat) : DescLog :=
  if v = USB_DT_DEVICE then .dtDevice
  else if v = USB_DT_CONFIG then .dtConfig
  else if v = USB_DT_STRING then .dtString
  else if v = USB_DT_INTERFACE then .dtInterface
  else if v = USB_DT_ENDPOINT then .dtEndpoint
  else if v = USB_DT_DEVICE_QUALIFIER then .dtDeviceQualifier
  else if v = USB_DT_OTHER_SPEED_CONFIG then .dtOtherSpeedConfig
  else if v = USB_DT_INTERFACE_POWER then .dtInterfacePower
  else if v = USB_DT_OTG then .dtOtg
  else if v = USB_DT_DEBUG then .dtDebug
  else if v = USB_DT_INTERFACE_ASSOCIATION then .dtInterfaceAssociation
  else if v = USB_DT_SECURITY then .dtSecurity
  else if v = USB_DT_KEY then .dtKey
  else if v = USB_DT_ENCRYPTION_TYPE then .dtEncryptionType
  else if v = USB_DT_BOS then .dtBos
  else if v = USB_DT_DEVICE_CAPABILITY then .dtDeviceCapability
  else if v = USB_DT_WIRELESS_ENDPOINT_COMP then .dtWirelessEndpointComp
  else if v = USB_DT_PIPE_USAGE then .dtPipeUsage
  else if v = USB_DT_SS_ENDPOINT_COMP then .dtSsEndpointComp
  else if v = HID_DT_HID then .dtHid
  else if v = HID_DT_REPORT then .dtHidReport
  else if v = HID_DT_PHYSICAL then .dtHidPhysical
  else .dtUnknown v

/-- The `switch (ctrl->bRequest)` under `USB_TYPE_STANDARD`. -/
def std_req_log (ctrl : usb_ctrlrequest) : ReqLog :=
  if ctrl.bRequest = USB_REQ_GET_DESCRIPTOR then
    .getDescriptor (desc_log (ctrl.wValue >>> 8))
  else if ctrl.bRequest = USB_REQ_SET_CONFIGURATION then .setConfiguration
  else if ctrl.bRequest = USB_REQ_GET_CONFIGURATION then .getConfiguration
  else if ctrl.bRequest = USB_REQ_SET_INTERFACE then .setInterface
  else if ctrl.bRequest = USB_REQ_GET_INTERFACE then .getInterface
  else if ctrl.bRequest = USB_REQ_GET_STATUS then .getStatus
  else if ctrl.bRequest = USB_REQ_CLEAR_FEATURE then .clearFeature
  else if ctrl.bRequest = USB_REQ_SET_FEATURE then .setFeature
  else .unknownReq ctrl.bRequest

/-- The `switch (ctrl->bRequest)` under `USB_TYPE_CLASS`, in the label
order of the source.  The labels for `HID_REQ_GET_REPORT` (= 1 =
`GET_PORT_STATUS`) and `HID_REQ_GET_IDLE` (= 2 = `SOFT_RESET`) duplicate
earlier labels, so under first-match those two branches are dead. -/
def class_req_log (r : Nat) : ReqLog :=
  if r = GET_DEVICE_ID then .getDeviceId
  else if r = GET_PORT_STATUS then .getPortStatus
  else if r = SOFT_RESET then .softReset
  else if r = HID_REQ_GET_REPORT then .hidGetReport
  else if r = HID_REQ_GET_IDLE then .hidGetIdle
  else if r = HID_REQ_GET_PROTOCOL then .hidGetProtocol
  else if r = HID_REQ_SET_REPORT then .hidSetReport
  else if r = HID_REQ_SET_IDLE then .hidSetIdle
  else if r = HID_REQ_SET_PROTOCOL then .hidSetProtocol
  else .unknownReq r

/-- The second `switch (ctrl->bRequestType & USB_TYPE_MASK)`: standard
and class requests get their own request switch, everything else
(vendor included) falls to the `req = unknown` default. -/
def req_log (ctrl : usb_ctrlrequest) : ReqLog :=
  if ctrl.bRequestType &&& USB_TYPE_MASK = USB_TYPE_STANDARD then
    std_req_log ctrl
  else if ctrl.bRequestType &&& USB_TYPE_MASK = USB_TYPE_CLASS then
    class_req_log ctrl.bRequest
  else .unknownReq ctrl.bRequest

def log_control_request (ctrl : usb_ctrlrequest) : CtrlLog :=
  { dir := usb_dir_log ctrl.bRequestType
    typ := usb_type_log ctrl.bRequestType
    req := req_log ctrl }

/-! ## The event decoder

`struct usb_raw_event` is a 32-bit type tag, a 32-bit payload length and a
flexible byte array.  The payload buffer is modelled as a total byte
function `data : Nat → Nat` (the memory that follows the header in the
caller's buffer), with `length` the declared payload length.  For control
events `log_event` reinterprets `&event->data[0]` as a
`struct usb_ctrlrequest` — the 8 setup-packet bytes — without consulting
`event->length`. -/

structure usb_raw_event where
  type : Nat
  length : Nat
  data : Nat → Nat

/-- Reading `struct usb_ctrlrequest` from a byte buffer: two bytes, then
three little-endian 16-bit words, 8 bytes in all. -/
def parse_setup (d : Nat → Nat) : usb_ctrlrequest :=
  { bRequestType := d 0
    bRequest := d 1
    wValue := d 2 + 256 * d 3
    wIndex := d 4 + 256 * d 5
    wLength := d 6 + 256 * d 7 }

inductive EventLog where
  | connect (length : Nat)
  | control (length : Nat) (ctrl : CtrlLog)
  | suspend
  | resume
  | reset
  | disconnect
  | unknownEvent (type : Nat) (length : Nat)
  deriving DecidableEq, Repr

/-- The `switch (event->type)` of `log_event`. -/
def log_event (e : usb_raw_event) : EventLog :=
  if e.type = USB_RAW_EVENT_CONNECT then .connect e.length
  else if e.type = USB_RAW_EVENT_CONTROL then
    .control e.length (log_control_request (parse_setup e.data))
  else if e.type = USB_RAW_EVENT_SUSPEND then .suspend
  else if e.type = USB_RAW_EVENT_RESUME then .resume
  else if e.type = USB_RAW_EVENT_RESET then .reset
  else if e.type = USB_RAW_EVENT_DISCONNECT then .disconnect
  else .unknownEvent e.type e.length

/-! ## Claims C3, C4, C5 -/

/-- C3: event decoding is total over the type tag: each of the six
recognized tag values decodes to its variant, and every other tag value
(0 and all future tags included) decodes to the unknown case carrying the
raw type and length. -/
theorem log_event_total_over_type :
    ∀ e : usb_raw_event,
      (e.type = USB_RAW_EVENT_CONNECT → log_event e = .connect e.length) ∧
      (e.type = USB_RAW_EVENT_CONTROL →
        log_event e = .control e.length (log_control_request (parse_setup e.data))) ∧
      (e.type = USB_RAW_EVENT_SUSPEND → log_event e = .suspend) ∧
      (e.type = USB_RAW_EVENT_RESUME → log_event e = .resume) ∧
      (e.type = USB_RAW_EVENT_RESET → log_event e = .reset) ∧
      (e.type = USB_RAW_EVENT_DISCONNECT → log_event e = .disconnect) ∧
      (e.type ∉ [USB_RAW_EVENT_CONNECT, USB_RAW_EVENT_CONTROL,
                 USB_RAW_EVENT_SUSPEND, USB_RAW_EVENT_RESUME,
                 USB_RAW_EVENT_RESET, USB_RAW_EVENT_DISCONNECT] →
        log_event e = .unknownEvent e.type e.length) := by
  intro e
  refine ⟨fun h => ?_, fun h => ?_, fun h => ?_, fun h => ?_, fun h => ?_,
          fun h => ?_, fun h => ?_⟩
  case refine_7 =>
    simp only [List.mem_cons, List.not_mem_nil, or_false, not_or,
               USB_RAW_EVENT_CONNECT, USB_RAW_EVENT_CONTROL,
               USB_RAW_EVENT_SUSPEND, USB_RAW_EVENT_RESUME,
               USB_RAW_EVENT_RESET, USB_RAW_EVENT_DISCONNECT] at h
    obtain ⟨h1, h2, h3, h4, h5, h6⟩ := h
    simp [log_event, h1, h2, h3, h4, h5, h6, USB_RAW_EVENT_CONNECT,
          USB_RAW_EVENT_CONTROL, USB_RAW_EVENT_SUSPEND, USB_RAW_EVENT_RESUME,
          USB_RAW_EVENT_RESET, USB_RAW_EVENT_DISCONNECT]
  all_goals
    simp [log_event, h, USB_RAW_EVENT_CONNECT, USB_RAW_EVENT_CONTROL,
          USB_RAW_EVENT_SUSPEND, USB_RAW_EVENT_RESUME,
          USB_RAW_EVENT_RESET, USB_RAW_EVENT_DISCONNECT]

theorem log_event_total_over_type_witness :
    log_event ⟨USB_RAW_EVENT_INVALID, 5, fun _ => 0⟩ =
      EventLog.unknownEvent USB_RAW_EVENT_INVALID 5 :=
  (log_event_total_over_type ⟨USB_RAW_EVENT_INVALID, 5, fun _ => 0⟩).2.2.2.2.2.2
    (by decide)

/-- C4, the claim as stated: the decode result of an event record depends
only on its type, its declared length, and the payload bytes below the
declared length (so no payload byte beyond `length` is ever read). -/
def log_event_reads_within_declared : Prop :=
  ∀ e1 e2 : usb_raw_event, e1.type = e2.type → e1.length = e2.length →
    (∀ i < e1.length, e1.data i = e2.data i) → log_event e1 = log_event e2

/-- C4 counterexample: for a control event whose declared length is 0 the
decoder still reads the 8 setup-packet bytes from the payload buffer:
two records agreeing on type, length and all bytes below the declared
length decode differently. -/
theorem truncated_control_event_reads_past_length :
    ¬ log_event_reads_within_declared := by
  intro h
  have h2 := h ⟨USB_RAW_EVENT_CONTROL, 0, fun _ => 0⟩
               ⟨USB_RAW_EVENT_CONTROL, 0, fun _ => 0x80⟩
               rfl rfl (fun i hi => absurd hi (Nat.not_lt_zero i))
  exact absurd h2 (by decide)

/-- C4 amended: decoding never fails (`log_event` is total) and for every
pair of records agreeing on type, declared length and the first 8 payload
buffer bytes the decode result is equal — i.e. the decoder reads at most
the fixed 8 setup-packet bytes, but it does so regardless of the declared
length, reading past the declared length when that is below 8. -/
theorem log_event_depends_on_first_eight_bytes :
    ∀ e1 e2 : usb_raw_event, e1.type = e2.type → e1.length = e2.length →
      (∀ i < 8, e1.data i = e2.data i) → log_event e1 = log_event e2 := by
  intro e1 e2 ht hl hd
  have hsetup : parse_setup e1.data = parse_setup e2.data := by
    simp [parse_setup, hd 0 (by omega), hd 1 (by omega), hd 2 (by omega),
          hd 3 (by omega), hd 4 (by omega), hd 5 (by omega), hd 6 (by omega),
          hd 7 (by omega)]
  simp [log_event, ht, hl, hsetup]

theorem log_event_depends_on_first_eight_bytes_witness :
    log_event ⟨USB_RAW_EVENT_CONTROL, 8, fun _ => 0⟩ =
      log_event ⟨USB_RAW_EVENT_CONTROL, 8, fun i => if i < 8 then 0 else 9⟩ :=
  log_event_depends_on_first_eight_bytes _ _ rfl rfl
    (fun i hi => by simp [hi])

set_option maxRecDepth 4000 in
/-- C5: direction is exactly bit 7 of `bRequestType` and the request
class is exactly bits 6–5 (`bRequestType / 2^5 % 2^2`), classified as
standard (0), class (1), vendor (2), unknown otherwise. -/
theorem setup_packet_bit_layout (ctrl : usb_ctrlrequest)
    (h : ctrl.bRequestType < 2 ^ 8) :
    ((log_control_request ctrl).dir =
      if ctrl.bRequestType.testBit 7 then UsbDir.dirIn else UsbDir.dirOut) ∧
    ((log_control_request ctrl).typ =
      if ctrl.bRequestType / 2 ^ 5 % 2 ^ 2 = 0 then TypeLog.standard
      else if ctrl.bRequestType / 2 ^ 5 % 2 ^ 2 = 1 then TypeLog.typeClass
      else if ctrl.bRequestType / 2 ^ 5 % 2 ^ 2 = 2 then TypeLog.vendor
      else TypeLog.unknownType ctrl.bRequestType) := by
  have aux : ∀ b < 2 ^ 8,
      (usb_dir_log b = if b.testBit 7 then UsbDir.dirIn else UsbDir.dirOut) ∧
      (usb_type_log b =
        if b / 2 ^ 5 % 2 ^ 2 = 0 then TypeLog.standard
        else if b / 2 ^ 5 % 2 ^ 2 = 1 then TypeLog.typeClass
        else if b / 2 ^ 5 % 2 ^ 2 = 2 then TypeLog.vendor
        else TypeLog.unknownType b) := by decide
  exact aux ctrl.bRequestType h

theorem setup_packet_bit_layout_witness :
    ((log_control_request ⟨0xA1, 1, 0, 0, 0⟩).dir =
      if (0xA1 : Nat).testBit 7 then UsbDir.dirIn else UsbDir.dirOut) ∧
    ((log_control_request ⟨0xA1, 1, 0, 0, 0⟩).typ =
      if 0xA1 / 2 ^ 5 % 2 ^ 2 = 0 then TypeLog.standard
      else if 0xA1 / 2 ^ 5 % 2 ^ 2 = 1 then TypeLog.typeClass
      else if 0xA1 / 2 ^ 5 % 2 ^ 2 = 2 then TypeLog.vendor
      else TypeLog.unknownType 0xA1) :=
  setup_packet_bit_layout ⟨0xA1, 1, 0, 0, 0⟩ (by norm_num)

/-! ## Claims C6 and C7 -/

/-- C6: in the class-request `switch` of `log_control_request`, the label
values collide: `GET_PORT_STATUS` = 1 = `HID_REQ_GET_REPORT` and
`SOFT_RESET` = 2 = `HID_REQ_GET_IDLE` (the source `switch` therefore has
duplicate `case` labels, besides its two `default` labels, and is not
valid C).  Under the first-match embedding the two HID branches are dead:
a class request with the HID GET_REPORT or GET_IDLE code is classified as
the printer request, and no request at all is classified as HID
GET_REPORT or GET_IDLE. -/
theorem class_request_switch_label_collision :
    GET_PORT_STATUS = HID_REQ_GET_REPORT ∧
    SOFT_RESET = HID_REQ_GET_IDLE ∧
    class_req_log HID_REQ_GET_REPORT = ReqLog.getPortStatus ∧
    class_req_log HID_REQ_GET_IDLE = ReqLog.softReset ∧
    (∀ r : Nat, class_req_log r ≠ ReqLog.hidGetReport ∧
                class_req_log r ≠ ReqLog.hidGetIdle) := by
  refine ⟨rfl, rfl, rfl, rfl, fun r => ?_⟩
  unfold class_req_log
  split_ifs <;>
    simp_all [GET_DEVICE_ID, GET_PORT_STATUS, SOFT_RESET, HID_REQ_GET_REPORT,
              HID_REQ_GET_IDLE, HID_REQ_GET_PROTOCOL, HID_REQ_SET_REPORT,
              HID_REQ_SET_IDLE, HID_REQ_SET_PROTOCOL]

/-- The descriptor-type values recognized by the GET_DESCRIPTOR `switch`:
the nineteen `USB_DT_*` labels plus the three `HID_DT_*` labels. -/
def recognized_desc_types : List Nat :=
  [USB_DT_DEVICE, USB_DT_CONFIG, USB_DT_STRING, USB_DT_INTERFACE,
   USB_DT_ENDPOINT, USB_DT_DEVICE_QUALIFIER, USB_DT_OTHER_SPEED_CONFIG,
   USB_DT_INTERFACE_POWER, USB_DT_OTG, USB_DT_DEBUG,
   USB_DT_INTERFACE_ASSOCIATION, USB_DT_SECURITY, USB_DT_KEY,
   USB_DT_ENCRYPTION_TYPE, USB_DT_BOS, USB_DT_DEVICE_CAPABILITY,
   USB_DT_WIRELESS_ENDPOINT_COMP, USB_DT_PIPE_USAGE, USB_DT_SS_ENDPOINT_COMP,
   HID_DT_HID, HID_DT_REPORT, HID_DT_PHYSICAL]

/-- C7: for a standard GET_DESCRIPTOR request the descriptor
classification switches exactly on the high byte of `wValue`
(`wValue / 2^8`, with the low byte `wValue % 2^8` the descriptor index in
`wValue = 2^8 * high + low`), recognizing exactly the standard descriptor
types plus `HID_DT_HID`, `HID_DT_REPORT` and `HID_DT_PHYSICAL`, and
classifying every other high-byte value as unknown. -/
theorem get_descriptor_switches_on_high_byte (ctrl : usb_ctrlrequest)
    (hstd : ctrl.bRequestType &&& USB_TYPE_MASK = USB_TYPE_STANDARD)
    (hreq : ctrl.bRequest = USB_REQ_GET_DESCRIPTOR)
    (hw : ctrl.wValue < 2 ^ 16) :
    (log_control_request ctrl).req =
      ReqLog.getDescriptor (desc_log (ctrl.wValue / 2 ^ 8)) ∧
    ctrl.wValue = 2 ^ 8 * (ctrl.wValue / 2 ^ 8) + ctrl.wValue % 2 ^ 8 ∧
    ctrl.wValue / 2 ^ 8 < 2 ^ 8 ∧
    (∀ v : Nat, desc_log v = DescLog.dtUnknown v ↔ v ∉ recognized_desc_types) := by
  refine ⟨?_, by omega, by omega, fun v => ?_⟩
  · show req_log ctrl = _
    simp [req_log, std_req_log, hstd, hreq, USB_TYPE_STANDARD,
          Nat.shiftRight_eq_div_pow]
  · by_cases hv : v ∈ recognized_desc_types
    · fin_cases hv <;> decide
    · simp only [recognized_desc_types, List.mem_cons, List.not_mem_nil,
                 or_false, not_or] at hv
      obtain ⟨n1, n2, n3, n4, n5, n6, n7, n8, n9, n10, n11, n12, n13, n14,
              n15, n16, n17, n18, n19, n20, n21, n22⟩ := hv
      simp [desc_log, recognized_desc_types, n1, n2, n3, n4, n5, n6, n7, n8,
            n9, n10, n11, n12, n13, n14, n15, n16, n17, n18, n19, n20, n21,
            n22]

theorem get_descriptor_switches_on_high_byte_witness :
    (log_control_request ⟨0x80, USB_REQ_GET_DESCRIPTOR, 0x100, 0, 18⟩).req =
      ReqLog.getDescriptor (desc_log (0x100 / 2 ^ 8)) ∧
    (0x100 : Nat) = 2 ^ 8 * (0x100 / 2 ^ 8) + 0x100 % 2 ^ 8 ∧
    (0x100 : Nat) / 2 ^ 8 < 2 ^ 8 ∧
    (∀ v : Nat, desc_log v = DescLog.dtUnknown v ↔ v ∉ recognized_desc_types) :=
  get_descriptor_switches_on_high_byte ⟨0x80, USB_REQ_GET_DESCRIPTOR, 0x100, 0, 18⟩
    (by decide) rfl (by norm_num)

/-! ## Claim C8: the event record wire shape -/

def le16_bytes (v : Nat) : List Nat := [v % 2 ^ 8, v / 2 ^ 8 % 2 ^ 8]

def le32_bytes (v : Nat) : List Nat :=
  [v % 2 ^ 8, v / 2 ^ 8 % 2 ^ 8, v / 2 ^ 16 % 2 ^ 8, v / 2 ^ 24 % 2 ^ 8]

def from_le_bytes (bs : List Nat) : Nat :=
  bs.foldr (fun b acc => b + 2 ^ 8 * acc) 0

/-- The byte layout of `struct usb_raw_event`: a 32-bit type tag, a
32-bit payload length, then the payload bytes. -/
def encode_event_record (t l : Nat) (payload : List Nat) : List Nat :=
  le32_bytes t ++ le32_bytes l ++ payload

def decode_event_record (bs : List Nat) : Option (Nat × Nat × List Nat) :=
  if 8 ≤ bs.length then
    some (from_le_bytes (bs.take 4), from_le_bytes ((bs.drop 4).take 4),
          bs.drop 8)
  else none

/-- The byte layout of `struct usb_ctrlrequest`: `bRequestType` and
`bRequest` bytes, then the three little-endian 16-bit words `wValue`,
`wIndex`, `wLength`. -/
def encode_setup (c : usb_ctrlrequest) : List Nat :=
  [c.bRequestType, c.bRequest] ++ le16_bytes c.wValue ++ le16_bytes c.wIndex ++
  le16_bytes c.wLength

def byte_at (bs : List Nat) (i : Nat) : Nat := bs.getD i 0

def wf_ctrl (c : usb_ctrlrequest) : Prop :=
  c.bRequestType < 2 ^ 8 ∧ c.bRequest < 2 ^ 8 ∧ c.wValue < 2 ^ 16 ∧
  c.wIndex < 2 ^ 16 ∧ c.wLength < 2 ^ 16

/-- C8: an event record is a 4-byte type tag, a 4-byte payload length and
`length` payload bytes (encode/decode round-trip, with the record 8 bytes
plus payload long), and for control events the payload is interpreted as
the 8-byte setup packet: the 8-byte setup layout round-trips, and
`log_event` decodes a control event through exactly that setup parse. -/
theorem event_record_wire_shape :
    (∀ t l : Nat, ∀ payload : List Nat, t < 2 ^ 32 → l < 2 ^ 32 →
      (encode_event_record t l payload).length = 4 + 4 + payload.length ∧
      decode_event_record (encode_event_record t l payload) =
        some (t, l, payload)) ∧
    (∀ c : usb_ctrlrequest, wf_ctrl c →
      (encode_setup c).length = 8 ∧
      parse_setup (byte_at (encode_setup c)) = c) ∧
    (∀ e : usb_raw_event, e.type = USB_RAW_EVENT_CONTROL →
      log_event e =
        .control e.length (log_control_request (parse_setup e.data))) := by
  refine ⟨fun t l payload ht hl => ⟨?_, ?_⟩, fun c hc => ⟨?_, ?_⟩,
          fun e he => ?_⟩
  · simp [encode_event_record, le32_bytes]
    omega
  · simp only [encode_event_record, le32_bytes, decode_event_record,
               List.cons_append, List.nil_append, List.length_cons,
               List.take_succ_cons, List.take_zero, List.drop_succ_cons,
               List.drop_zero, from_le_bytes, List.foldr]
    rw [if_pos (by omega)]
    simp only [Option.some.injEq, Prod.mk.injEq]
    refine ⟨by omega, by omega, trivial⟩
  · simp [encode_setup, le16_bytes]
  · obtain ⟨h1, h2, h3, h4, h5⟩ := hc
    obtain ⟨brt, br, wv, wi, wl⟩ := c
    simp only [wf_ctrl] at *
    simp only [parse_setup, byte_at, encode_setup, le16_bytes,
               List.cons_append, List.nil_append, List.getD_cons_zero,
               List.getD_cons_succ]
    simp only [usb_ctrlrequest.mk.injEq]
    refine ⟨trivial, trivial, by omega, by omega, by omega⟩
  · simp [log_event, he, USB_RAW_EVENT_CONNECT, USB_RAW_EVENT_CONTROL]

theorem event_record_wire_shape_witness :
    decode_event_record
        (encode_event_record 2 8 [0x80, 6, 0, 1, 0, 0, 18, 0]) =
      some (2, 8, [0x80, 6, 0, 1, 0, 0, 18, 0]) ∧
    parse_setup (byte_at (encode_setup ⟨0x80, 6, 0x100, 0, 18⟩)) =
      ⟨0x80, 6, 0x100, 0, 18⟩ ∧
    log_event ⟨USB_RAW_EVENT_CONTROL, 8, fun _ => 0⟩ =
      .control 8 (log_control_request (parse_setup fun _ => 0)) := by
  refine ⟨(event_record_wire_shape.1 2 8 _ (by norm_num) (by norm_num)).2,
          (event_record_wire_shape.2.1 ⟨0x80, 6, 0x100, 0, 18⟩
            (by unfold wf_ctrl; norm_num)).2,
          event_record_wire_shape.2.2 ⟨USB_RAW_EVENT_CONTROL, 8, fun _ => 0⟩
            rfl⟩

/-! ## Claim C9: the endpoint-capabilities table -/

structure usb_raw_ep_caps where
  type_control : Bool
  type_iso : Bool
  type_bulk : Bool
  type_int : Bool
  dir_in : Bool
  dir_out : Bool
  deriving DecidableEq, Repr

/-- The six one-bit fields packed into the `__u32` bitfield of
`struct usb_raw_ep_caps`, in declaration order from bit 0. -/
def caps_word (c : usb_raw_ep_caps) : Nat :=
  c.type_control.toNat + 2 * c.type_iso.toNat + 4 * c.type_bulk.toNat +
  8 * c.type_int.toNat + 16 * c.dir_in.toNat + 32 * c.dir_out.toNat

structure usb_raw_ep_limits where
  maxpacket_limit : Nat
  max_streams : Nat
  reserved : Nat
  deriving DecidableEq, Repr

structure usb_raw_ep_info where
  name : List Nat
  addr : Nat
  caps : usb_raw_ep_caps
  limits : usb_raw_ep_limits
  deriving DecidableEq, Repr

structure usb_raw_eps_info where
  eps : List usb_raw_ep_info
  deriving DecidableEq, Repr

def wf_ep_info (e : usb_raw_ep_info) : Prop :=
  e.name.length = USB_RAW_EP_NAME_MAX ∧ (∀ b ∈ e.name, b < 2 ^ 8) ∧
  e.addr < 2 ^ 32 ∧ e.limits.maxpacket_limit < 2 ^ 16 ∧
  e.limits.max_streams < 2 ^ 16 ∧ e.limits.reserved < 2 ^ 32

def wf_eps_info (i : usb_raw_eps_info) : Prop :=
  i.eps.length = USB_RAW_EPS_NUM_MAX ∧ ∀ e ∈ i.eps, wf_ep_info e

/-- The byte layout of `struct usb_raw_ep_info`: the 16-byte name, the
32-bit address, the 32-bit caps bitfield word, then the limits
(`__u16 maxpacket_limit`, `__u16 max_streams`, `__u32 reserved`). -/
def encode_ep_info (e : usb_raw_ep_info) : List Nat :=
  e.name ++ le32_bytes e.addr ++ le32_bytes (caps_word e.caps) ++
  le16_bytes e.limits.maxpacket_limit ++ le16_bytes e.limits.max_streams ++
  le32_bytes e.limits.reserved

/-- C9: a well-formed endpoint-capabilities table has exactly
`USB_RAW_EPS_NUM_MAX` = 30 entries; each entry carries a name of at most
`USB_RAW_EP_NAME_MAX` = 16 bytes, a 32-bit address, six one-bit
capability flags (each flag is one bit of the packed caps word, which
fits in 6 bits) and the limits, the whole entry occupying 32 bytes. -/
theorem eps_info_table_shape :
    ∀ info : usb_raw_eps_info, wf_eps_info info →
      info.eps.length = 30 ∧ USB_RAW_EPS_NUM_MAX = 30 ∧
      USB_RAW_EP_NAME_MAX = 16 ∧
      ∀ e ∈ info.eps,
        e.name.length ≤ 16 ∧ e.addr < 2 ^ 32 ∧
        (encode_ep_info e).length = 32 ∧
        caps_word e.caps < 2 ^ 6 ∧
        ((caps_word e.caps).testBit 0 = e.caps.type_control ∧
         (caps_word e.caps).testBit 1 = e.caps.type_iso ∧
         (caps_word e.caps).testBit 2 = e.caps.type_bulk ∧
         (caps_word e.caps).testBit 3 = e.caps.type_int ∧
         (caps_word e.caps).testBit 4 = e.caps.dir_in ∧
         (caps_word e.caps).testBit 5 = e.caps.dir_out) := by
  intro info hwf
  obtain ⟨hlen, hall⟩ := hwf
  have caps_aux : ∀ c : usb_raw_ep_caps,
      caps_word c < 2 ^ 6 ∧
      ((caps_word c).testBit 0 = c.type_control ∧
       (caps_word c).testBit 1 = c.type_iso ∧
       (caps_word c).testBit 2 = c.type_bulk ∧
       (caps_word c).testBit 3 = c.type_int ∧
       (caps_word c).testBit 4 = c.dir_in ∧
       (caps_word c).testBit 5 = c.dir_out) := by
    intro c
    obtain ⟨a, b, c3, d, f, g⟩ := c
    cases a <;> cases b <;> cases c3 <;> cases d <;> cases f <;> cases g <;>
      decide
  refine ⟨by simpa [USB_RAW_EPS_NUM_MAX] using hlen, rfl, rfl, fun e he => ?_⟩
  obtain ⟨hname, hbytes, haddr, hl1, hl2, hl3⟩ := hall e he
  have henc : (encode_ep_info e).length = 32 := by
    simp [encode_ep_info, le32_bytes, le16_bytes, hname, USB_RAW_EP_NAME_MAX]
  exact ⟨by simp [USB_RAW_EP_NAME_MAX] at hname; omega, haddr, henc,
         (caps_aux e.caps).1, (caps_aux e.caps).2⟩

def sample_ep_info : usb_raw_ep_info :=
  ⟨List.replicate 16 0, 1, ⟨false, false, true, false, true, false⟩,
   ⟨512, 0, 0⟩⟩

def sample_eps_info : usb_raw_eps_info :=
  ⟨List.replicate 30 sample_ep_info⟩

theorem eps_info_table_shape_witness :
    sample_eps_info.eps.length = 30 :=
  (eps_info_table_shape sample_eps_info
    ⟨by simp [sample_eps_info, USB_RAW_EPS_NUM_MAX],
     fun e he => by
      rw [List.eq_of_mem_replicate he]
      refine ⟨by simp [sample_ep_info, USB_RAW_EP_NAME_MAX],
              fun b hb => ?_, by norm_num [sample_ep_info],
              by norm_num [sample_ep_info], by norm_num [sample_ep_info],
              by norm_num [sample_ep_info]⟩
      simp [sample_ep_info] at hb
      simp [hb]⟩).1

/-! ## Claim C10: `usb_raw_init` and its `strcpy` copies

`usb_raw_init` declares a stack `struct usb_raw_init` (two 128-byte name
arrays and a speed byte, contents initially indeterminate), `strcpy`s the
caller's NUL-terminated driver and device names into the arrays with no
length check, sets the speed, and passes the struct to the INIT ioctl.
A C string is modelled as the list of its non-NUL bytes; `strcpy` into a
fixed buffer is well-defined only when the string plus its terminator
fits, and is modelled as `none` (undefined behaviour) otherwise. -/

def strcpy_into (buf s : List Nat) : Option (List Nat) :=
  if s.length + 1 ≤ buf.length then some (s ++ 0 :: buf.drop (s.length + 1))
  else none

structure usb_raw_init_arg where
  driver_name : List Nat
  device_name : List Nat
  speed : Nat
  deriving DecidableEq, Repr

/-- `usb_raw_init` up to the ioctl: the argument struct it passes to
`USB_RAW_IOCTL_INIT`, as a function of the two name strings, the speed,
and the indeterminate initial contents `buf1`, `buf2` of the two
128-byte arrays. -/
def usb_raw_init (driver device : List Nat) (speed : Nat)
    (buf1 buf2 : List Nat) : Option usb_raw_init_arg :=
  match strcpy_into buf1 driver, strcpy_into buf2 device with
  | some d1, some d2 => some ⟨d1, d2, speed⟩
  | _, _ => none

/-- The C string stored in a byte array: the bytes before the first NUL. -/
def c_string (buf : List Nat) : List Nat := buf.takeWhile (· ≠ 0)

theorem c_string_of_copy (s t : List Nat) (h : ∀ b ∈ s, b ≠ 0) :
    c_string (s ++ 0 :: t) = s := by
  induction s with
  | nil => simp [c_string]
  | cons a as ih =>
      have ha : a ≠ 0 := h a (by simp)
      have ih2 := ih (fun b hb => h b (by simp [hb]))
      simp only [c_string] at ih2
      simp only [c_string, List.cons_append, List.takeWhile_cons]
      rw [if_pos (by simp [ha]), ih2]

/-- C10: when each name (terminator included) fits in the 128-byte
array — the precondition under which the unchecked `strcpy`s are
defined — `usb_raw_init` passes to the kernel an argument whose
`driver_name` and `device_name` arrays hold exactly the given names as
C strings in full 128-byte fields, and whose speed is the given speed;
this holds for every initial content of the two stack arrays. -/
theorem usb_raw_init_passes_names (driver device : List Nat) (speed : Nat)
    (buf1 buf2 : List Nat)
    (hb1 : buf1.length = UDC_NAME_LENGTH_MAX)
    (hb2 : buf2.length = UDC_NAME_LENGTH_MAX)
    (hd : driver.length + 1 ≤ UDC_NAME_LENGTH_MAX)
    (he : device.length + 1 ≤ UDC_NAME_LENGTH_MAX)
    (hz1 : ∀ b ∈ driver, b ≠ 0) (hz2 : ∀ b ∈ device, b ≠ 0) :
    ∃ arg : usb_raw_init_arg,
      usb_raw_init driver device speed buf1 buf2 = some arg ∧
      c_string arg.driver_name = driver ∧
      c_string arg.device_name = device ∧
      arg.driver_name.length = UDC_NAME_LENGTH_MAX ∧
      arg.device_name.length = UDC_NAME_LENGTH_MAX ∧
      arg.speed = speed := by
  have h1 : strcpy_into buf1 driver =
      some (driver ++ 0 :: buf1.drop (driver.length + 1)) := by
    rw [strcpy_into, if_pos (by omega)]
  have h2 : strcpy_into buf2 device =
      some (device ++ 0 :: buf2.drop (device.length + 1)) := by
    rw [strcpy_into, if_pos (by omega)]
  refine ⟨⟨driver ++ 0 :: buf1.drop (driver.length + 1),
          device ++ 0 :: buf2.drop (device.length + 1), speed⟩,
          by rw [usb_raw_init, h1, h2], c_string_of_copy _ _ hz1,
          c_string_of_copy _ _ hz2, ?_, ?_, rfl⟩
  · simp only [List.length_append, List.length_cons, List.length_drop]
    omega
  · simp only [List.length_append, List.length_cons, List.length_drop]
    omega

theorem usb_raw_init_passes_names_witness :
    ∃ arg : usb_raw_init_arg,
      usb_raw_init [100, 117, 109] [117, 100, 99] 5
          (List.replicate 128 7) (List.replicate 128 7) = some arg ∧
      c_string arg.driver_name = [100, 117, 109] ∧
      c_string arg.device_name = [117, 100, 99] ∧
      arg.driver_name.length = UDC_NAME_LENGTH_MAX ∧
      arg.device_name.length = UDC_NAME_LENGTH_MAX ∧
      arg.speed = 5 :=
  usb_raw_init_passes_names [100, 117, 109] [117, 100, 99] 5
    (List.replicate 128 7) (List.replicate 128 7)
    (by simp [UDC_NAME_LENGTH_MAX]) (by simp [UDC_NAME_LENGTH_MAX])
    (by norm_num [UDC_NAME_LENGTH_MAX]) (by norm_num [UDC_NAME_LENGTH_MAX])
    (by decide) (by decide)
